import Mathlib

/-!
Verification of the `emit_web` structured-value serialization engine
(`src/lib.rs`, module `ser`, plus the extent encoder and the crypto RNG).

The Rust source serializes arbitrary serde values into JavaScript values
(`wasm_bindgen::JsValue`).  The embedding below mirrors the source:

* `JsValue` is the output dynamic-value tree.  JavaScript numbers are
  modelled with exact rationals: every number the serializer produces on
  the integer path is exactly representable as an IEEE-754 double
  (magnitudes at most 2^53 - 1, plus the power of two 2^127 reached by
  the wrapping-abs slip analysed below), so carrying the exact value is
  faithful.  Objects are ordered key/value lists; property insertion
  (`js_sys::Reflect::set`) overwrites an existing key in place and
  otherwise appends, which `jsSet` reproduces keyed on value equality
  (the string coercion JavaScript applies to non-string property keys is
  not exercised by any claim).
* `SValue` is the universe of serde driver behaviours reaching the
  `Serializer` impl of `JsSerializer`: one constructor per entry point
  of the trait.  All signed integer widths funnel into `serialize_i128`
  and all unsigned widths into `serialize_u128` in the source, so a
  single `int` / `uint` constructor carries the widened value.  Floats
  are passed through to JavaScript numbers unchanged by the source and
  are outside every claim, so they are elided from the universe.
  `failing` models a child value whose own `Serialize::serialize`
  returns an error through `JsError::custom` (the CustomError case of
  the specification).
* `JsError` is the unit error struct of the source; its `custom`
  constructor discards the message, which `customErr` reproduces.
-/

/-- Output dynamic value (the shapes of `wasm_bindgen::JsValue` produced by
this crate): null, boolean, number (exact value of the double), bigint
backed by its decimal string, string, byte buffer (`Uint8Array`), `Date`
(carrying its millisecond argument), ordered array, ordered object. -/
inductive JsValue where
  | null
  | bool (b : Bool)
  | num (q : ℚ)
  | bigint (s : String)
  | str (s : String)
  | bytes (bs : List Nat)
  | date (millis : ℚ)
  | arr (xs : List JsValue)
  | obj (kvs : List (JsValue × JsValue))

/-- Value equality on dynamic values, used to model property-key lookup in
`Reflect::set`.  Every key the claims exercise is a primitive. -/
def jsBeq : JsValue → JsValue → Bool
  | .null, .null => true
  | .bool a, .bool b => a == b
  | .num a, .num b => a == b
  | .bigint a, .bigint b => a == b
  | .str a, .str b => a == b
  | .bytes a, .bytes b => a == b
  | .date a, .date b => a == b
  | _, _ => false

/-- Model of `js_sys::Reflect::set` on a plain object represented as an
ordered association list: overwrite the first binding of an equal key in
place, otherwise append the new binding at the end. -/
def jsSet (kvs : List (JsValue × JsValue)) (k v : JsValue) : List (JsValue × JsValue) :=
  match kvs with
  | [] => [(k, v)]
  | (k2, v2) :: rest => if jsBeq k2 k then (k2, v) :: rest else (k2, v2) :: jsSet rest k v

/-- The unit error struct `JsError` of the source (`src/lib.rs:342-366`).
It carries no data; its `Display` impl is a fixed message. -/
structure JsError where

/-- Model of `serde::ser::Error::custom` for `JsError`
(`src/lib.rs:359-366`): the message is discarded. -/
def customErr (_msg : String) : JsError := {}

/-- The `Display` rendering of `JsError` (`src/lib.rs:351-355`). -/
def jsErrorMessage (_e : JsError) : String := "failed to serialize a value to JavaScript"

/-- Universe of serde driver behaviours reaching `JsSerializer`
(`src/lib.rs:381-592`): one constructor per `Serializer` entry point.
All signed widths delegate to `serialize_i128` and all unsigned widths to
`serialize_u128` in the source (`src/lib.rs:396-442`), so integers carry
the widened value.  `failing` is a value whose own `Serialize` impl
returns `Err(JsError::custom(..))`. -/
inductive SValue where
  | bool (b : Bool)
  | int (v : Int)
  | uint (v : Nat)
  | char (c : Char)
  | str (s : String)
  | bytes (bs : List Nat)
  | none
  | some (v : SValue)
  | unit
  | unitStruct (name : String)
  | unitVariant (variant : String)
  | newtypeStruct (name : String) (v : SValue)
  | newtypeVariant (variant : String) (v : SValue)
  | seq (xs : List SValue)
  | tuple (xs : List SValue)
  | tupleStruct (name : String) (xs : List SValue)
  | tupleVariant (variant : String) (xs : List SValue)
  | map (kvs : List (SValue × SValue))
  | struct_ (fields : List (String × SValue))
  | structVariant (variant : String) (fields : List (String × SValue))
  | failing

/-- Rust `i128::MAX`. -/
def i128MAX : Int := 2 ^ 127 - 1

/-- Rust `i128::MIN`. -/
def i128MIN : Int := -(2 ^ 127)

/-- Rust `u128::MAX`. -/
def u128MAX : Nat := 2 ^ 128 - 1

/-- Rust `i128::checked_abs`: `Option.none` exactly when the absolute value
overflows the type, which happens only at `i128::MIN`.  Plain `v.abs()` as
written at `src/lib.rs:413` panics at that input when overflow checks are
enabled (debug builds). -/
def i128_checked_abs (v : Int) : Option Int :=
  if v = i128MIN then Option.none else Option.some |v|

/-- Behaviour of `v.abs()` at `src/lib.rs:413` when overflow checks are
disabled (release builds): twos-complement wrapping, so the absolute value
of `i128::MIN` wraps back to `i128::MIN`. -/
def i128_abs (v : Int) : Int :=
  if v = i128MIN then i128MIN else |v|

/-- `JsSerializer::serialize_i128` (`src/lib.rs:412-418`).  The shift
`i128::MAX >> 74` is floor division of the nonnegative `i128MAX` by
`2 ^ 74`.  The plain-number branch `v as f64` is exact at every value that
reaches it (magnitude at most `2 ^ 53 - 1`, or the power of two `-(2^127)`
let through by wrapping abs), so the number carries the value itself. -/
def serialize_i128 (v : Int) : Except JsError JsValue :=
  if i128_abs v > i128MAX / 2 ^ 74 then
    .ok (.bigint (toString v))
  else
    .ok (.num (v : ℚ))

/-- `JsSerializer::serialize_u128` (`src/lib.rs:436-442`); the shift
`u128::MAX >> 75` is floor division by `2 ^ 75`. -/
def serialize_u128 (v : Nat) : Except JsError JsValue :=
  if v > u128MAX / 2 ^ 75 then
    .ok (.bigint (toString v))
  else
    .ok (.num (v : ℚ))

/-- `serialize_i8` widens and delegates (`src/lib.rs:396-398`). -/
def serialize_i8 (v : Int) : Except JsError JsValue := serialize_i128 v

/-- `serialize_i16` widens and delegates (`src/lib.rs:400-402`). -/
def serialize_i16 (v : Int) : Except JsError JsValue := serialize_i128 v

/-- `serialize_i32` widens and delegates (`src/lib.rs:404-406`). -/
def serialize_i32 (v : Int) : Except JsError JsValue := serialize_i128 v

/-- `serialize_i64` widens and delegates (`src/lib.rs:408-410`). -/
def serialize_i64 (v : Int) : Except JsError JsValue := serialize_i128 v

/-- `serialize_u8` widens and delegates (`src/lib.rs:420-422`). -/
def serialize_u8 (v : Nat) : Except JsError JsValue := serialize_u128 v

/-- `serialize_u16` widens and delegates (`src/lib.rs:424-426`). -/
def serialize_u16 (v : Nat) : Except JsError JsValue := serialize_u128 v

/-- `serialize_u32` widens and delegates (`src/lib.rs:428-430`). -/
def serialize_u32 (v : Nat) : Except JsError JsValue := serialize_u128 v

/-- `serialize_u64` widens and delegates (`src/lib.rs:432-434`). -/
def serialize_u64 (v : Nat) : Except JsError JsValue := serialize_u128 v

/-- The map/struct builder `JsObjectSerializer` (`src/lib.rs:375-379`):
an optional recorded variant name, an optional pending key, and the object
accumulated so far. -/
structure JsObjectSerializer where
  variant : Option String
  key : Option JsValue
  result : List (JsValue × JsValue)

/-- `JsSerializer::serialize_map` (`src/lib.rs:559-565`): a fresh builder
with no variant, no pending key and an empty object. -/
def serializeMapBegin : JsObjectSerializer :=
  ⟨Option.none, Option.none, []⟩

/-- `ser::jsvariant` (`src/lib.rs:742-748`): wrap an already-encoded
payload in a fresh single-key object keyed by the case name.
`Reflect::set` on a fresh plain object cannot fail. -/
def jsvariant (variant : String) (value : JsValue) : Except JsError JsValue :=
  .ok (.obj (jsSet [] (.str variant) value))

/-- `SerializeMap::end` (`src/lib.rs:697-699`): unconditionally returns the
accumulated object.  Note there is no check of the pending `key` field. -/
def mapEnd (s : JsObjectSerializer) : Except JsError JsValue :=
  .ok (.obj s.result)

/-- `SerializeStructVariant::end` (`src/lib.rs:733-739`): wrap the
accumulated object under the recorded case name. -/
def structVariantEnd (s : JsObjectSerializer) : Except JsError JsValue :=
  match s.variant with
  | Option.none => .error (customErr "missing variant")
  | Option.some n => jsvariant n (.obj s.result)

/-- `SerializeTupleVariant::end` (`src/lib.rs:661-667`): wrap the
accumulated array under the recorded case name. -/
def tupleVariantEnd (variant : Option String) (result : List JsValue) : Except JsError JsValue :=
  match variant with
  | Option.none => .error (customErr "missing variant")
  | Option.some n => jsvariant n (.arr result)

mutual

/-- The `Serializer` impl of `JsSerializer` (`src/lib.rs:381-592`) composed
with the serde `Serialize` driver of each input shape.  Child values are
serialized through `ser::jsvalue`, whose error conversions on the unit
error type are the identity, so recursion uses `serialize` directly. -/
def serialize : SValue → Except JsError JsValue
  | .bool b => .ok (.bool b)
  | .int v => serialize_i128 v
  | .uint v => serialize_u128 v
  | .char c => .ok (.str c.toString)
  | .str s => .ok (.str s)
  | .bytes bs => .ok (.bytes bs)
  | .none => .ok .null
  | .some v => serialize v
  | .unit => .ok .null
  | .unitStruct name => .ok (.str name)
  | .unitVariant variant => .ok (.str variant)
  | .newtypeStruct _ v => serialize v
  | .newtypeVariant variant v =>
      match serialize v with
      | .error e => .error e
      | .ok d => jsvariant variant d
  | .seq xs =>
      match pushElems [] xs with
      | .error e => .error e
      | .ok r => .ok (.arr r)
  | .tuple xs =>
      match pushElems [] xs with
      | .error e => .error e
      | .ok r => .ok (.arr r)
  | .tupleStruct _ xs =>
      match pushElems [] xs with
      | .error e => .error e
      | .ok r => .ok (.arr r)
  | .tupleVariant variant xs =>
      match pushElems [] xs with
      | .error e => .error e
      | .ok r => tupleVariantEnd (Option.some variant) r
  | .map kvs =>
      match serMapFold serializeMapBegin kvs with
      | .error e => .error e
      | .ok s => mapEnd s
  | .struct_ fs =>
      match setFields [] fs with
      | .error e => .error e
      | .ok r => .ok (.obj r)
  | .structVariant variant fs =>
      match setFields [] fs with
      | .error e => .error e
      | .ok r => structVariantEnd ⟨Option.some variant, Option.none, r⟩
  | .failing => .error (customErr "child value refused to serialize")

/-- The element loop shared by the four array-builder impls
(`SerializeSeq`/`SerializeTuple::serialize_element`,
`SerializeTupleStruct`/`SerializeTupleVariant::serialize_field`,
`src/lib.rs:598-605, 616-623, 634-641, 652-659`; all four bodies are the
identical `self.result.push(&jsvalue(value)?)`): serialize each child in
order and append it to the accumulated array, stopping at the first
error. -/
def pushElems (acc : List JsValue) : List SValue → Except JsError (List JsValue)
  | [] => .ok acc
  | x :: xs =>
      match serialize x with
      | .error e => .error e
      | .ok d => pushElems (acc ++ [d]) xs

/-- `SerializeMap::serialize_key` (`src/lib.rs:674-681`): serialize the key
and record it as pending (overwriting any previously pending key). -/
def mapSerializeKey (s : JsObjectSerializer) (key : SValue) : Except JsError JsObjectSerializer :=
  match serialize key with
  | .error e => .error e
  | .ok kd => .ok { s with key := Option.some kd }

/-- `SerializeMap::serialize_value` (`src/lib.rs:683-695`): take the pending
key, failing with `JsError::custom("missing key for a value")` when there is
none, then serialize the value and bind the pair into the object. -/
def mapSerializeValue (s : JsObjectSerializer) (value : SValue) : Except JsError JsObjectSerializer :=
  match s.key with
  | Option.none => .error (customErr "missing key for a value")
  | Option.some k =>
      match serialize value with
      | .error e => .error e
      | .ok d => .ok { s with key := Option.none, result := jsSet s.result k d }

/-- The serde `Serialize` driver of a map value: for each pair, supply the
key and then the value to the map builder. -/
def serMapFold (s : JsObjectSerializer) : List (SValue × SValue) → Except JsError JsObjectSerializer
  | [] => .ok s
  | (k, v) :: rest =>
      match mapSerializeKey s k with
      | .error e => .error e
      | .ok s1 =>
          match mapSerializeValue s1 v with
          | .error e => .error e
          | .ok s2 => serMapFold s2 rest

/-- The field loop shared by `SerializeStruct::serialize_field` and
`SerializeStructVariant::serialize_field` (`src/lib.rs:706-713, 724-731`;
both bodies are the identical
`Reflect::set(&self.result, &JsValue::from(key), &jsvalue(value)?)?`):
serialize each field value and bind it under its static field name,
stopping at the first error. -/
def setFields (acc : List (JsValue × JsValue)) : List (String × SValue) → Except JsError (List (JsValue × JsValue))
  | [] => .ok acc
  | (k, v) :: rest =>
      match serialize v with
      | .error e => .error e
      | .ok d => setFields (jsSet acc (.str k) d) rest

end

/-- `ser::jsvalue` (`src/lib.rs:337-340`): run the serializer and render a
failure as a JavaScript string built from the `Display` of `JsError`. -/
def jsvalue (v : SValue) : Except JsValue JsValue :=
  match serialize v with
  | .ok d => .ok d
  | .error e => .error (.str (jsErrorMessage e))

/-- `to_jsvalue` (`src/lib.rs:158-163`): collapse the result, handing the
error string to the caller as the value itself on failure. -/
def to_jsvalue (v : SValue) : JsValue :=
  match jsvalue v with
  | .ok value => value
  | .error err => err

/-- The direct children a composite shape hands to the serializer: the
wrapped value of option/newtype shapes, the elements of the array-building
shapes, every key and value of a map, and every field value of a struct or
struct variant. -/
def childrenOf : SValue → List SValue
  | .some v => [v]
  | .newtypeStruct _ v => [v]
  | .newtypeVariant _ v => [v]
  | .seq xs => xs
  | .tuple xs => xs
  | .tupleStruct _ xs => xs
  | .tupleVariant _ xs => xs
  | .map kvs => kvs.map Prod.fst ++ kvs.map Prod.snd
  | .struct_ fs => fs.map Prod.snd
  | .structVariant _ fs => fs.map Prod.snd
  | _ => []

/-- `core::time::Duration`: seconds plus sub-second nanoseconds. -/
structure Duration where
  secs : Nat
  subsecNanos : Nat

/-- `duration_millis_f64` (`src/lib.rs:120-125`), as the exact rational
value of `secs * 1000.0 + subsec_nanos / 1_000_000.0`; double rounding is
abstracted, no claim depends on the numeric value. -/
def duration_millis_f64 (d : Duration) : ℚ :=
  (d.secs : ℚ) * 1000 + (d.subsecNanos : ℚ) / 1000000

/-- Boundary model of `emit::Extent` (an external collaborator):
`point` is `extent.as_point().to_unix()` and `len` is `extent.len()`,
which yields a duration exactly when the event spans one and is `None`
for a point-in-time event. -/
structure Extent where
  point : Duration
  len : Option Duration

/-- `encode_extent` (`src/lib.rs:92-118`): null when there is no extent;
otherwise an object holding a `Date` under `"timestamp"` and, only when
`extent.len()` yields a duration, its milliseconds under
`"milliseconds"`. -/
def encode_extent : Option Extent → JsValue
  | Option.none => .null
  | Option.some extent =>
      let m := jsSet [] (.str "timestamp") (.date (duration_millis_f64 extent.point))
      let m :=
        match extent.len with
        | Option.none => m
        | Option.some len => jsSet m (.str "milliseconds") (.num (duration_millis_f64 len))
      .obj m

/-- Key membership in an object value. -/
def objHasKey (v : JsValue) (k : String) : Bool :=
  match v with
  | .obj kvs => kvs.any (fun p => jsBeq p.1 (.str k))
  | _ => false

/-- `crypto_fill` (`src/lib.rs:276-278`): delegate to the external
`crypto.getRandomValues`, modelled as an abstract transformation of the
byte buffer. -/
def crypto_fill (get_random_values : List Nat → List Nat) (buf : List Nat) : List Nat :=
  get_random_values buf

/-- `CryptoRng::fill` (`src/lib.rs:268-274`): fill the buffer and return
it wrapped in `Some`, unconditionally. -/
def CryptoRng_fill (get_random_values : List Nat → List Nat) (arr : List Nat) : Option (List Nat) :=
  Option.some (crypto_fill get_random_values arr)

theorem pushElems_error_of_mem (c : SValue) (hf : serialize c = .error JsError.mk) :
    ∀ (xs : List SValue) (acc : List JsValue), c ∈ xs →
      pushElems acc xs = .error JsError.mk := by
  intro xs
  induction xs with
  | nil => intro acc hc; cases hc
  | cons x rest ih =>
    intro acc hc
    rcases List.mem_cons.mp hc with h | h
    · subst h
      simp [pushElems, hf]
    · cases hx : serialize x with
      | error e => simp [pushElems, hx]
      | ok d =>
        simp only [pushElems, hx]
        exact ih (acc ++ [d]) h

theorem mapSerializeValue_error (s : JsObjectSerializer) (v : SValue)
    (hf : serialize v = .error JsError.mk) :
    mapSerializeValue s v = .error JsError.mk := by
  cases hk : s.key <;> simp [mapSerializeValue, hk, hf, customErr]

theorem serMapFold_error_of_mem (c : SValue) (hf : serialize c = .error JsError.mk) :
    ∀ (kvs : List (SValue × SValue)) (s : JsObjectSerializer),
      c ∈ kvs.map Prod.fst ++ kvs.map Prod.snd →
      serMapFold s kvs = .error JsError.mk := by
  intro kvs
  induction kvs with
  | nil => intro s hc; simp at hc
  | cons p rest ih =>
    obtain ⟨k, v⟩ := p
    intro s hc
    have hc2 : c = k ∨ c = v ∨ c ∈ rest.map Prod.fst ++ rest.map Prod.snd := by
      simp only [List.map_cons, List.mem_append, List.mem_cons] at hc ⊢
      tauto
    rcases hc2 with h | h | h
    · subst h
      simp [serMapFold, mapSerializeKey, hf]
    · subst h
      cases hk : mapSerializeKey s k with
      | error e => simp [serMapFold, hk]
      | ok s1 => simp [serMapFold, hk, mapSerializeValue_error s1 c hf]
    · cases hk : mapSerializeKey s k with
      | error e => simp [serMapFold, hk]
      | ok s1 =>
        cases hv : mapSerializeValue s1 v with
        | error e => simp [serMapFold, hk, hv]
        | ok s2 =>
          simp only [serMapFold, hk, hv]
          exact ih s2 h

theorem setFields_error_of_mem (c : SValue) (hf : serialize c = .error JsError.mk) :
    ∀ (fs : List (String × SValue)) (acc : List (JsValue × JsValue)),
      c ∈ fs.map Prod.snd → setFields acc fs = .error JsError.mk := by
  intro fs
  induction fs with
  | nil => intro acc hc; simp at hc
  | cons p rest ih =>
    obtain ⟨k, v⟩ := p
    intro acc hc
    have hc2 : c = v ∨ c ∈ rest.map Prod.snd := by
      simp only [List.map_cons, List.mem_cons] at hc
      exact hc
    rcases hc2 with h | h
    · subst h
      simp [setFields, hf]
    · cases hv : serialize v with
      | error e => simp [setFields, hv]
      | ok d =>
        simp only [setFields, hv]
        exact ih (jsSet acc (.str k) d) h

theorem serialize_error_of_child_error (v c : SValue)
    (hc : c ∈ childrenOf v) (hf : serialize c = .error JsError.mk) :
    serialize v = .error JsError.mk := by
  cases v with
  | some w =>
    simp [childrenOf] at hc
    subst hc
    simp [serialize, hf]
  | newtypeStruct n w =>
    simp [childrenOf] at hc
    subst hc
    simp [serialize, hf]
  | newtypeVariant n w =>
    simp [childrenOf] at hc
    subst hc
    simp [serialize, hf]
  | seq xs =>
    simp only [childrenOf] at hc
    simp [serialize, pushElems_error_of_mem c hf xs [] hc]
  | tuple xs =>
    simp only [childrenOf] at hc
    simp [serialize, pushElems_error_of_mem c hf xs [] hc]
  | tupleStruct n xs =>
    simp only [childrenOf] at hc
    simp [serialize, pushElems_error_of_mem c hf xs [] hc]
  | tupleVariant n xs =>
    simp only [childrenOf] at hc
    simp [serialize, pushElems_error_of_mem c hf xs [] hc]
  | map kvs =>
    simp only [childrenOf] at hc
    simp [serialize, serMapFold_error_of_mem c hf kvs serializeMapBegin hc]
  | struct_ fs =>
    simp only [childrenOf] at hc
    simp [serialize, setFields_error_of_mem c hf fs [] hc]
  | structVariant n fs =>
    simp only [childrenOf] at hc
    simp [serialize, setFields_error_of_mem c hf fs [] hc]
  | bool b => simp [childrenOf] at hc
  | int n => simp [childrenOf] at hc
  | uint n => simp [childrenOf] at hc
  | char ch => simp [childrenOf] at hc
  | str s => simp [childrenOf] at hc
  | bytes bs => simp [childrenOf] at hc
  | none => simp [childrenOf] at hc
  | unit => simp [childrenOf] at hc
  | unitStruct n => simp [childrenOf] at hc
  | unitVariant n => simp [childrenOf] at hc
  | failing => simp [childrenOf] at hc

/-- C3: if any direct child of a composite value fails to serialize, the
top-level call fails outright: it returns the propagated error rendered by
ser::jsvalue and hands back no dynamic value at all. -/
theorem jsvalue_child_failure_propagates (v c : SValue)
    (hc : c ∈ childrenOf v) (hf : serialize c = Except.error JsError.mk) :
    jsvalue v = Except.error (.str "failed to serialize a value to JavaScript") := by
  have hv := serialize_error_of_child_error v c hc hf
  simp [jsvalue, hv, jsErrorMessage]

theorem jsvalue_child_failure_propagates_witness :
    SValue.failing ∈ childrenOf (.seq [.int 1, .failing])
    ∧ serialize .failing = Except.error JsError.mk
    ∧ jsvalue (.seq [.int 1, .failing])
        = Except.error (.str "failed to serialize a value to JavaScript") :=
  ⟨by simp [childrenOf], by simp [serialize, customErr],
    jsvalue_child_failure_propagates (.seq [.int 1, .failing]) .failing
      (by simp [childrenOf]) (by simp [serialize, customErr])⟩

/-- C7: the anonymous unit and None serialize to null, while a named unit
(unit struct or no-payload unit variant) serializes to its name as a
string, for every name. -/
theorem serialize_unit_asymmetry (name : String) :
    serialize .unit = .ok .null
    ∧ serialize .none = .ok .null
    ∧ serialize (.unitStruct name) = .ok (.str name)
    ∧ serialize (.unitVariant name) = .ok (.str name) := by
  refine ⟨?_, ?_, ?_, ?_⟩ <;> simp [serialize]

/-- C8: wrapping a value in the Some case of Option is the identity with
respect to serialization. -/
theorem serialize_some_transparent (v : SValue) :
    serialize (.some v) = serialize v := by
  simp [serialize]

/-- C10: the crypto RNG never reports unavailability: for every buffer and
every behaviour of the external getRandomValues, fill returns Some of the
filled buffer. -/
theorem cryptoRng_fill_total (g : List Nat → List Nat) (arr : List Nat) :
    CryptoRng_fill g arr = Option.some (crypto_fill g arr)
    ∧ (CryptoRng_fill g arr).isSome = true := by
  exact ⟨rfl, rfl⟩

/-- C5: encode_extent returns null when no extent is present; with an
extent it returns an object that always holds a timestamp field and holds
a milliseconds field exactly when the extent carries a duration (a span
rather than a point-in-time event). -/
theorem encode_extent_shape :
    encode_extent Option.none = .null
    ∧ ∀ e : Extent,
        objHasKey (encode_extent (Option.some e)) "timestamp" = true
        ∧ objHasKey (encode_extent (Option.some e)) "milliseconds" = e.len.isSome := by
  refine ⟨rfl, ?_⟩
  rintro ⟨pt, len⟩
  cases len <;> simp [encode_extent, objHasKey, jsSet, jsBeq]

/-- C6: supplying a value to the map builder when no key is pending,
whether because no key was ever supplied or because the previous key was
consumed, always fails with the structural error raised as
JsError::custom of the message missing key for a value. -/
theorem mapSerializeValue_missing_key (s : JsObjectSerializer) (v : SValue)
    (h : s.key = Option.none) :
    mapSerializeValue s v = .error (customErr "missing key for a value") := by
  simp [mapSerializeValue, h]

theorem mapSerializeValue_missing_key_witness :
    serializeMapBegin.key = Option.none
    ∧ mapSerializeValue serializeMapBegin (.int 1) = .error (customErr "missing key for a value") :=
  ⟨rfl, mapSerializeValue_missing_key serializeMapBegin (.int 1) rfl⟩

/-- C2 counterexample: supplying the key "a" to a fresh map builder and
then finalizing yields a successful empty object, not an error — the
pending unmatched key is silently discarded, refuting the claim that
finalizing with a pending key always fails. -/
theorem mapEnd_pending_key_cex :
    mapSerializeKey serializeMapBegin (.str "a")
      = .ok ⟨Option.none, Option.some (.str "a"), []⟩
    ∧ mapEnd ⟨Option.none, Option.some (.str "a"), []⟩ = .ok (.obj []) := by
  constructor
  · simp [mapSerializeKey, serialize, serializeMapBegin]
  · rfl

/-- C2 amended: finalizing the map builder never fails; in particular with
a pending unmatched key it succeeds, returning the object accumulated so
far and silently dropping the pending key. -/
theorem mapEnd_pending_key_succeeds (s : JsObjectSerializer)
    (h : s.key.isSome = true) :
    mapEnd s = .ok (.obj s.result) := rfl

theorem mapEnd_pending_key_succeeds_witness :
    (JsObjectSerializer.mk Option.none (Option.some (.str "a")) []).key.isSome = true
    ∧ mapEnd ⟨Option.none, Option.some (.str "a"), []⟩ = .ok (.obj []) :=
  ⟨rfl, mapEnd_pending_key_succeeds ⟨Option.none, Option.some (.str "a"), []⟩ rfl⟩

/-- C4: a no-payload variant case serializes to the case name as a string;
a newtype case wraps the serialized payload once under the case name; a
tuple case first serializes its payload exactly as a plain sequence would
and wraps the resulting array once; a struct case first serializes its
payload exactly as a plain struct would and wraps the resulting object
once. -/
theorem serialize_variant_wrapping (name : String) (v : SValue)
    (xs : List SValue) (fs : List (String × SValue)) :
    serialize (.unitVariant name) = .ok (.str name)
    ∧ serialize (.newtypeVariant name v) = (serialize v).bind (jsvariant name)
    ∧ serialize (.tupleVariant name xs) = (serialize (.seq xs)).bind (jsvariant name)
    ∧ serialize (.structVariant name fs) = (serialize (.struct_ fs)).bind (jsvariant name) := by
  refine ⟨by simp [serialize], ?_, ?_, ?_⟩
  · cases hv : serialize v <;> simp [serialize, hv, Except.bind]
  · cases hp : pushElems [] xs <;> simp [serialize, hp, tupleVariantEnd, Except.bind]
  · cases hf : setFields [] fs <;> simp [serialize, hf, structVariantEnd, Except.bind]

set_option maxRecDepth 100000 in
/-- C1: the classification slips at one input.  Both 128-bit shifts equal
the documented threshold 2 ^ 53 - 1, yet at i128::MIN — whose magnitude
2 ^ 127 exceeds that threshold — serialize_i128 yields a plain number
rather than a big-number value: v.abs() wraps to i128::MIN under release
semantics (and panics when overflow checks are on), and the negative
wrapped result never exceeds the threshold. -/
theorem serialize_i128_min_misclassified :
    i128MAX / 2 ^ 74 = 2 ^ 53 - 1
    ∧ u128MAX / 2 ^ 75 = 2 ^ 53 - 1
    ∧ (2 ^ 53 - 1 : Int) < -i128MIN
    ∧ serialize_i128 i128MIN = .ok (.num (i128MIN : ℚ)) := by
  refine ⟨by decide, by decide, by decide, ?_⟩
  rw [serialize_i128, if_neg (by decide)]

set_option maxRecDepth 100000 in
/-- C9: serialize_i128 is not overflow-free over all of i128: at i128::MIN
the absolute-value computation of the threshold comparison overflows
(Rust checked_abs is none there, so plain abs panics in debug builds);
under release wrapping semantics the function does still return Ok. -/
theorem serialize_i128_abs_overflow_at_min :
    i128_checked_abs i128MIN = Option.none
    ∧ i128MAX < -i128MIN
    ∧ i128_abs i128MIN = i128MIN
    ∧ (serialize_i128 i128MIN).isOk = true := by
  refine ⟨by simp [i128_checked_abs], by decide, by simp [i128_abs], ?_⟩
  rw [serialize_i128, if_neg (by decide)]
  rfl

set_option maxRecDepth 100000 in
/-- Away from the overflowing input, the signed classification does follow
the documented threshold: a value of magnitude above 2 ^ 53 - 1 becomes a
big-number carrying its exact decimal string, and a value within the
threshold becomes a plain (exactly representable) number. -/
theorem serialize_i128_threshold (v : Int) (hlo : i128MIN < v) :
    (2 ^ 53 - 1 < |v| → serialize_i128 v = .ok (.bigint (toString v)))
    ∧ (|v| ≤ 2 ^ 53 - 1 → serialize_i128 v = .ok (.num (v : ℚ))) := by
  have hne : v ≠ i128MIN := ne_of_gt hlo
  have habs : i128_abs v = |v| := by rw [i128_abs, if_neg hne]
  have hthr : i128MAX / 2 ^ 74 = 2 ^ 53 - 1 := by decide
  constructor
  · intro h
    rw [serialize_i128, habs, hthr, if_pos h]
  · intro h
    rw [serialize_i128, habs, hthr, if_neg (by omega)]

theorem serialize_i128_threshold_witness :
    i128MIN < 2 ^ 53 ∧ (2 ^ 53 - 1 : Int) < |(2 ^ 53 : Int)|
    ∧ serialize_i128 (2 ^ 53) = .ok (.bigint (toString (2 ^ 53 : Int))) := by
  refine ⟨by decide, by decide, ?_⟩
  exact (serialize_i128_threshold (2 ^ 53) (by decide)).1 (by decide)

set_option maxRecDepth 100000 in
/-- The unsigned classification follows the documented threshold at every
input: the unsigned path has no absolute-value computation and no
overflowing case. -/
theorem serialize_u128_threshold (v : Nat) :
    (2 ^ 53 - 1 < v → serialize_u128 v = .ok (.bigint (toString v)))
    ∧ (v ≤ 2 ^ 53 - 1 → serialize_u128 v = .ok (.num (v : ℚ))) := by
  have hthr : u128MAX / 2 ^ 75 = 2 ^ 53 - 1 := by decide
  constructor
  · intro h
    rw [serialize_u128, hthr, if_pos h]
  · intro h
    rw [serialize_u128, hthr, if_neg (by omega)]

theorem serialize_u128_threshold_witness :
    (2 ^ 53 - 1 : Nat) < 2 ^ 53
    ∧ serialize_u128 (2 ^ 53) = .ok (.bigint (toString (2 ^ 53 : Nat))) := by
  refine ⟨by decide, ?_⟩
  exact (serialize_u128_threshold (2 ^ 53)).1 (by decide)
